import Mathlib

/-!
Shallow embedding of `src/fanSpeed.py` (inspurServer-fanSpeed): a script that
logs into one or more BMC (baseboard management controller) HTTP APIs and sets
fan mode / fan speed, with a date-based policy choosing between "auto" and a
fixed duty cycle.

Network responses are modelled as explicit inputs (one `HttpResponse` per HTTP
call the script makes); JSON bodies are modelled by the inductive `Json`.
Python exceptions become `Except String`; `sys.exit(1)` becomes a non-zero
exit code in `MainResult`.  Every outgoing BMC request is recorded in a trace
(`Request`), carrying the header state (cookie / CSRF token) it was sent with.
-/

namespace FanSpeed

/-- Model of a parsed JSON value (integral numbers only; the script never
distinguishes floats). -/
inductive Json where
  | str (s : String)
  | num (n : Int)
  | boolean (b : Bool)
  | null
  | obj (fields : List (String × Json))
  | arr (elems : List Json)

/-- Dictionary lookup on the field list of a JSON object (Python `d[k]` /
`k in d` on a dict). -/
def lookupField : List (String × Json) → String → Option Json
  | [], _ => none
  | (k, v) :: rest, key => if k = key then some v else lookupField rest key

/-- Python `data[key]` on an arbitrary JSON value: succeeds only when the
value is an object that has the key (otherwise Python raises
TypeError/KeyError). -/
def Json.getField : Json → String → Option Json
  | .obj fields, key => lookupField fields key
  | _, _ => none

/-- An HTTP response as the script observes it: final status code, the raw
`Set-Cookie` header when present, and the body (`none` when `.json()` would
fail to parse it). -/
structure HttpResponse where
  status : Nat
  setCookie : Option String
  body : Option Json

/-- `requests.Response.raise_for_status` raises exactly for 4xx and 5xx
status codes. -/
def statusError (s : Nat) : Bool := 400 ≤ s && s < 600

/-! ### Character-level string helpers (Python `split` / `strip` / `startswith`) -/

/-- Python `s.split(sep)` for a one-character separator, on the character
list of the string.  `splitOnChar c l` is never empty. -/
def splitOnChar (c : Char) : List Char → List (List Char)
  | [] => [[]]
  | x :: xs =>
    match splitOnChar c xs with
    | [] => [[]]
    | h :: t => if x = c then [] :: h :: t else (x :: h) :: t

/-- Python `s.strip()` restricted to ASCII whitespace. -/
def stripChars (l : List Char) : List Char :=
  ((l.dropWhile Char.isWhitespace).reverse.dropWhile Char.isWhitespace).reverse

/-- Python `s.startswith(p)`. -/
def startsWithL : List Char → List Char → Bool
  | _, [] => true
  | [], _ :: _ => false
  | x :: xs, p :: ps => x = p && startsWithL xs ps

/-- Python `sub in s` (substring containment). -/
def containsSub : List Char → List Char → Bool
  | [], sub => sub.isEmpty
  | x :: xs, sub => startsWithL (x :: xs) sub || containsSub xs sub

/-! ### Cookie scanning (`FanController.login`, lines 82-92)

The login code splits the raw `Set-Cookie` header value on `;`, strips each
piece, looks for the first piece starting with `SESSION=` or `QSESSIONID=`,
and takes `piece.split('=')[1]` — i.e. the part of the cookie value before
its first `=`. -/

/-- The characters of the literal `"SESSION="`. -/
def sessKey : List Char := "SESSION=".data

/-- The characters of the literal `"QSESSIONID="`. -/
def qsessKey : List Char := "QSESSIONID=".data

/-- Scan the `;`-split pieces of the `Set-Cookie` value for the first one
starting with `SESSION=` or `QSESSIONID=`; return `piece.split('=')[1]`. -/
def findSession : List (List Char) → Option (List Char)
  | [] => none
  | tok :: rest =>
    let t := stripChars tok
    if startsWithL t sessKey || startsWithL t qsessKey then
      (splitOnChar '=' t).get? 1
    else findSession rest

/-- The session-id extraction of `FanController.login` applied to the raw
`Set-Cookie` header value. -/
def extractSessionId (raw : List Char) : Option (List Char) :=
  findSession (splitOnChar ';' raw)

/-- Python truthiness test `not session_id`: `None` and the empty string are
falsy. -/
def sessionIdFalsy : Option (List Char) → Bool
  | none => true
  | some l => l.isEmpty

/-! ### Python `int()` on a string (`get_fan_speed_input`, line 159)

ASCII model of `int(s)`: surrounding whitespace is stripped, an optional
sign is allowed, then decimal digits with single underscores between
digits. -/

/-- Parse the remaining digits after the first one; underscores must be
followed by a digit. -/
def pyDigitsRest (acc : Nat) : List Char → Option Nat
  | [] => some acc
  | c :: cs =>
    if c.isDigit then pyDigitsRest (10 * acc + (c.toNat - 48)) cs
    else if c = '_' then
      match cs with
      | [] => none
      | c2 :: cs2 =>
        if c2.isDigit then pyDigitsRest (10 * acc + (c2.toNat - 48)) cs2
        else none
    else none

/-- Parse a nonempty digit run (underscore-separated). -/
def pyDigits : List Char → Option Nat
  | [] => none
  | c :: cs => if c.isDigit then pyDigitsRest (c.toNat - 48) cs else none

/-- Python `int(s)` on the character list: strip, optional sign, digits. -/
def pyIntOfChars (l : List Char) : Option Int :=
  match stripChars l with
  | '+' :: rest => (pyDigits rest).map (fun n => (n : Int))
  | '-' :: rest => (pyDigits rest).map (fun n => -(n : Int))
  | rest => (pyDigits rest).map (fun n => (n : Int))

/-- Python `int(s)`. -/
def pyInt (s : String) : Option Int := pyIntOfChars s.data

/-! ### Configuration loading (`load_config`, lines 21-37) -/

/-- One entry of `fanSpeed.json`, a JSON dict whose keys may each be absent
(`config['k']` raises `KeyError` when absent; `config.get(k, d)` defaults).
`fans_count` is an `Int` (a JSON number); `range` of a negative number is
empty. -/
structure HostConfig where
  bmc_host : Option String := none
  username : Option String := none
  password : Option String := none
  fans_count : Option Int := none
  fan_speed : Option Int := none
  description : Option String := none

/-- The state of the `fanSpeed.json` file as `load_config` observes it:
missing, present but unparsable (`json.load` raises), a JSON array of
configs, or a single JSON config object. -/
inductive FileState where
  | missing
  | unparsable
  | jsonArr (cs : List HostConfig)
  | jsonSingle (c : HostConfig)

/-- `load_config` (lines 21-37): returns the array as-is, wraps a single
object into a one-element list, and returns `[]` when the file is missing
or any exception was raised while loading it.  It is a total function: no
exception escapes. -/
def load_config : FileState → List HostConfig
  | .missing => []
  | .unparsable => []
  | .jsonArr cs => cs
  | .jsonSingle c => [c]

/-! ### Holiday policy (`is_weekend` lines 170-174, `is_chinese_holiday`
lines 176-230) -/

/-- `is_weekend`: `datetime.now().weekday() >= 5` (Monday = 0, Saturday = 5,
Sunday = 6). -/
def is_weekend (weekday : Nat) : Bool := 5 ≤ weekday

/-- Outcome of the remote holiday lookup: `fail` covers every exception
before the `data.get` check (network error, timeout, non-2xx status via
`raise_for_status`, unparsable JSON); `ok body` is a parsed JSON body. -/
inductive HolidayLookup where
  | fail
  | ok (body : Json)

/-- The hardcoded fallback holiday table of `is_chinese_holiday` (month,
day). -/
def holidayTable : List (Nat × Nat) :=
  [(1, 1), (1, 2), (1, 3), (4, 4), (4, 5), (5, 1), (5, 2), (5, 3),
   (10, 1), (10, 2), (10, 3), (10, 4), (10, 5)]

/-- Fallback path of `is_chinese_holiday`: membership of today's
(month, day) in the static table. -/
def holidayFallback (today : Nat × Nat) : Bool :=
  holidayTable.contains today

/-- Python `data.get(k) == v` for an integer `v`: a missing key gives
`None == v` (false); JSON booleans compare equal to 0/1 in Python. -/
def pyGetEqInt (fields : List (String × Json)) (k : String) (v : Int) : Bool :=
  match lookupField fields k with
  | some (.num m) => m = v
  | some (.boolean b) => (if b then (1 : Int) else 0) = v
  | _ => false

/-- `is_chinese_holiday`: on a parsed JSON object, true iff
`data.get('status') == 1 and (data.get('type') == 2 or data.get('type') == 1)`;
on any exception — including `data.get` on a non-dict body (AttributeError) —
fall back to the static table.  Total: the `except` clause means it never
raises. -/
def is_chinese_holiday (today : Nat × Nat) : HolidayLookup → Bool
  | .ok (.obj fields) =>
    pyGetEqInt fields "status" 1 &&
      (pyGetEqInt fields "type" 2 || pyGetEqInt fields "type" 1)
  | .ok _ => holidayFallback today
  | .fail => holidayFallback today

/-! ### CLI parsing (`get_fan_speed_input`, lines 153-168) -/

/-- Python `c.lower()` for an ASCII character. -/
def pyCharLower (c : Char) : Char :=
  if 'A' ≤ c ∧ c ≤ 'Z' then Char.ofNat (c.toNat + 32) else c

/-- Python `s.lower()` restricted to ASCII. -/
def pyLower (s : String) : String := String.mk (s.data.map pyCharLower)

/-- Result of `get_fan_speed_input`: `autoMode` for the literal `auto`
(case-insensitive), `speedVal n` for an integer in `[0, 100]`, `invalid`
for `sys.exit(1)` (non-numeric or out of range), `absent` when no argument
was given. -/
inductive CliParse where
  | autoMode
  | speedVal (n : Int)
  | invalid
  | absent
deriving DecidableEq, Repr

/-- `get_fan_speed_input`: checks `sys.argv[1].lower() == 'auto'` first,
then `int(sys.argv[1])` with the range check `0 <= speed <= 100`; any
parse failure or out-of-range value exits with status 1. -/
def get_fan_speed_input (arg : Option String) : CliParse :=
  match arg with
  | none => .absent
  | some s =>
    if pyLower s = "auto" then .autoMode
    else
      match pyInt s with
      | some n => if 0 ≤ n ∧ n ≤ 100 then .speedVal n else .invalid
      | none => .invalid

/-! ### BMC session client (`FanController`, lines 39-151)

The mutable `self.headers` dict is modelled by `Headers`; each outgoing HTTP
call is recorded as a `Request` carrying the header state it was sent with,
so session-artifact flow is visible in the trace. -/

/-- The constant User-Agent string set in `__init__`. -/
def userAgentString : String :=
  "Mozilla/5.0 (Windows NT 10.0; Win64; x64) AppleWebKit/537.36 (KHTML, like Gecko) Chrome/108.0.0.0 Safari/537.36 Edg/117.0.2045.60"

/-- The `self.headers` dict: content type, the constant User-Agent, and the
`Cookie` / `X-Csrftoken` entries added by `login` (absent until then).  The
CSRF value is the raw JSON field value stored by
`self.headers["X-Csrftoken"] = response_json["CSRFToken"]`. -/
structure Headers where
  contentType : String
  userAgent : String
  cookie : Option String
  csrf : Option Json

/-- Header state after `__init__` (lines 47-50): only content-type and
User-Agent; no cookie, no CSRF token. -/
def initHeaders : Headers :=
  { contentType := "application/json"
    userAgent := userAgentString
    cookie := none
    csrf := none }

/-- A `FanController` instance after `__init__`. -/
structure Controller where
  host : String
  username : String
  password : String
  fans_count : Int
  headers : Headers

/-- `FanController.__init__` (lines 40-51): `config['bmc_host']` etc. raise
`KeyError` when the key is absent; lookups happen in source order. -/
def fanControllerInit (c : HostConfig) : Except String Controller :=
  match c.bmc_host with
  | none => .error "KeyError: bmc_host"
  | some host =>
    match c.username with
    | none => .error "KeyError: username"
    | some username =>
      match c.password with
      | none => .error "KeyError: password"
      | some password =>
        match c.fans_count with
        | none => .error "KeyError: fans_count"
        | some fc =>
          .ok { host := host, username := username, password := password
                fans_count := fc, headers := initHeaders }

/-- The kind of an outgoing BMC request, with the data the claims are about
(the fan index and duty value of a per-fan PUT). -/
inductive ReqKind where
  | getRandom
  | postSession
  | putFanMode (mode : String)
  | putFanSpeed (index : Nat) (duty : Int)
  | getStatus

/-- One outgoing BMC request: target host, endpoint kind, and the header
state it was sent with. -/
structure Request where
  host : String
  kind : ReqKind
  headers : Headers

/-- The environment of one host iteration: the response each of the host's
endpoints would give (`fanResp i` answers the PUT for fan index `i`). -/
structure HostEnv where
  randomResp : HttpResponse
  loginResp : HttpResponse
  modeResp : HttpResponse
  fanResp : Nat → HttpResponse
  statusResp : HttpResponse

/-- Result of `FanController.get_random` (lines 53-61) given the response:
`raise_for_status`, then `res.json()["random"]`; any failure is re-raised. -/
def getRandomResult (res : HttpResponse) : Except String Json :=
  if statusError res.status then .error "HTTPError"
  else
    match res.body with
    | none => .error "JSONDecodeError"
    | some j =>
      match j.getField "random" with
      | none => .error "KeyError: random"
      | some v => .ok v

/-- `FanController.get_random`: one GET to `/api/randomtag` with the
current headers, returning `getRandomResult`. -/
def get_random (ctrl : Controller) (env : HostEnv) :
    List Request × Except String Json :=
  ([⟨ctrl.host, .getRandom, ctrl.headers⟩], getRandomResult env.randomResp)

/-- The cookie header synthesized by `login` (line 99). -/
def mkCookieHeader (sessionId : String) : String :=
  "lang=zh-cn;QSESSIONID=" ++ sessionId ++ "; refresh_disable=1"

/-- The header state `login` sends the POST with (line 67): the content
type is switched to form-urlencoded before the request. -/
def formHeaders (h : Headers) : Headers :=
  { h with contentType := "application/x-www-form-urlencoded; charset=UTF-8" }

/-- Result of the login POST (lines 77-101): `raise_for_status`, require a
`Set-Cookie` header, extract a truthy session id from it, require a JSON
body with `CSRFToken`, then install `X-Csrftoken` and the synthesized
`Cookie` into the header state and restore the JSON content type. -/
def loginFinish (ctrl : Controller) (res : HttpResponse) :
    Except String Controller :=
  if statusError res.status then .error "HTTPError"
  else
    match res.setCookie with
    | none => .error "no Set-Cookie header in response"
    | some sc =>
      if sessionIdFalsy (extractSessionId sc.data) then
        .error "cannot get session id"
      else
        match res.body with
        | none => .error "JSONDecodeError"
        | some j =>
          match j.getField "CSRFToken" with
          | none => .error "cannot get CSRFToken"
          | some tok =>
            .ok { ctrl with
              headers :=
                { contentType := "application/json"
                  userAgent := ctrl.headers.userAgent
                  cookie := some (mkCookieHeader
                    (String.mk ((extractSessionId sc.data).getD [])))
                  csrf := some tok } }

/-- `FanController.login` (lines 63-106): fetch the random tag (its failure
is re-raised before any POST is sent), then POST `/api/session` and finish
with `loginFinish`.  Any failure is re-raised. -/
def login (ctrl : Controller) (env : HostEnv) :
    List Request × Except String Controller :=
  match getRandomResult env.randomResp with
  | .error e => ([⟨ctrl.host, .getRandom, ctrl.headers⟩], .error e)
  | .ok _randomTag =>
    ([⟨ctrl.host, .getRandom, ctrl.headers⟩,
      ⟨ctrl.host, .postSession, formHeaders ctrl.headers⟩],
     loginFinish ctrl env.loginResp)

/-- `FanController.set_fan_mode` (lines 108-117): PUT
`/api/settings/fans-mode`; `raise_for_status` failures are re-raised. -/
def set_fan_mode (ctrl : Controller) (mode : String) (res : HttpResponse) :
    List Request × Except String Unit :=
  (⟨ctrl.host, .putFanMode mode, ctrl.headers⟩ :: [],
   if statusError res.status then .error "HTTPError" else .ok ())

/-- Success condition of one per-fan PUT inside `set_fan_speed` (lines
122-129): `raise_for_status` passes (status not 4xx/5xx), the body parses
as JSON, and `response_data['duty']` succeeds (a JSON object with the key
`duty`). -/
def fanPutSuccess (res : HttpResponse) : Bool :=
  !statusError res.status &&
    (match res.body with
     | some j => (j.getField "duty").isSome
     | none => false)

/-- The loop body of `set_fan_speed` over a list of fan indices: each
iteration issues one PUT and increments the counter when the try-block
succeeds; a failing iteration is absorbed and the loop continues. -/
def setFanSpeedLoop (ctrl : Controller) (speed : Int)
    (fanResp : Nat → HttpResponse) : List Nat → List Request × Nat
  | [] => ([], 0)
  | i :: rest =>
    let req : Request := ⟨ctrl.host, .putFanSpeed i speed, ctrl.headers⟩
    let r := setFanSpeedLoop ctrl speed fanResp rest
    (req :: r.1, (if fanPutSuccess (fanResp i) then 1 else 0) + r.2)

/-- `FanController.set_fan_speed` (lines 119-133): `for i in
range(self.fans_count)`, PUT `/api/settings/fan/i` with body
`{"duty": speed}`, count successes, return the count.  Total: per-fan
exceptions never escape. -/
def set_fan_speed (ctrl : Controller) (speed : Int)
    (fanResp : Nat → HttpResponse) : List Request × Nat :=
  setFanSpeedLoop ctrl speed fanResp (List.range ctrl.fans_count.toNat)

/-- The `'fans' in fan_info` / `for fan in fan_info['fans']` scan of
`get_fan_status` (lines 142-147) on the parsed body: on a dict, a missing
`fans` key only logs a warning; an uniterable `fans` value raises; on a
non-dict body the Python `in` test itself raises or, when it succeeds,
indexing by string raises. -/
def fanInfoScan : Json → Except String Unit
  | .obj fields =>
    match lookupField fields "fans" with
    | none => .ok ()
    | some (.arr _) => .ok ()
    | some (.str _) => .ok ()
    | some (.obj _) => .ok ()
    | some _ => .error "TypeError: fans value is not iterable"
  | .arr elems =>
    if elems.any (fun e => match e with | .str s => s = "fans" | _ => false)
    then .error "TypeError: list indices must be integers"
    else .ok ()
  | .str s =>
    if containsSub s.data "fans".data
    then .error "TypeError: string indices must be integers"
    else .ok ()
  | _ => .error "TypeError: argument is not a container"

/-- Result of `FanController.get_fan_status` (lines 135-151) given the
response: `raise_for_status`, parse JSON, scan for `fans`; failures are
re-raised. -/
def getFanStatusResult (res : HttpResponse) : Except String Unit :=
  if statusError res.status then .error "HTTPError"
  else
    match res.body with
    | none => .error "JSONDecodeError"
    | some j => fanInfoScan j

/-- `FanController.get_fan_status`: one GET to `/api/status/fan_info` with
the current headers. -/
def get_fan_status (ctrl : Controller) (res : HttpResponse) :
    List Request × Except String Unit :=
  ([⟨ctrl.host, .getStatus, ctrl.headers⟩], getFanStatusResult res)

/-! ### Run orchestrator (`main`, lines 232-306) -/

/-- The resolved target: the literal `'auto'` or an integer duty value
(`target == 'auto'` is false for every integer). -/
inductive Target where
  | auto
  | num (n : Int)
deriving DecidableEq, Repr

/-- The per-host speed choice of `main` (lines 279-283): the host's own
`fan_speed` when the key is present, else the resolved target value. -/
def currentSpeed (t : Int) (c : HostConfig) : Int :=
  match c.fan_speed with
  | some s => s
  | none => t

/-- The body of one host iteration of `main` (lines 267-295, the inner
`try`): construct the controller, log in, then either set auto mode, or set
manual mode and write the per-fan speed (the host's own `fan_speed` when
present, else the resolved target), then fetch the status.  The returned
trace lists every BMC request issued; the `Except` is the outcome the inner
`except` clause observes. -/
def processHost (target : Target) (c : HostConfig) (env : HostEnv) :
    List Request × Except String Unit :=
  match fanControllerInit c with
  | .error e => ([], .error e)
  | .ok ctrl0 =>
    match login ctrl0 env with
    | (tr, .error e) => (tr, .error e)
    | (tr, .ok ctrl) =>
      match target with
      | .auto =>
        match set_fan_mode ctrl "auto" env.modeResp with
        | (tr2, .error e) => (tr ++ tr2, .error e)
        | (tr2, .ok ()) =>
          let r := get_fan_status ctrl env.statusResp
          (tr ++ tr2 ++ r.1, r.2)
      | .num t =>
        let current_speed := currentSpeed t c
        match set_fan_mode ctrl "manual" env.modeResp with
        | (tr2, .error e) => (tr ++ tr2, .error e)
        | (tr2, .ok ()) =>
          let fans := set_fan_speed ctrl current_speed env.fanResp
          let r := get_fan_status ctrl env.statusResp
          (tr ++ tr2 ++ fans.1 ++ r.1, r.2)

/-- The host loop of `main` (lines 263-300): each iteration runs
`processHost` inside a `try`; on exception it logs and `continue`s, so the
loop always advances to the next configuration. -/
def runHosts (target : Target) :
    List (HostConfig × HostEnv) → List (List Request × Except String Unit)
  | [] => []
  | (c, env) :: rest => processHost target c env :: runHosts target rest

/-- Pair each configuration with its host environment (the `i`-th host talks
to `envs i`). -/
def attachEnvs (envs : Nat → HostEnv) : Nat → List HostConfig →
    List (HostConfig × HostEnv)
  | _, [] => []
  | i, c :: rest => (c, envs i) :: attachEnvs envs (i + 1) rest

/-- Observable outcome of a `main` run: the process exit code, the resolved
target (`none` when resolution failed or exited first), and the per-host
(trace, outcome) pairs. -/
structure MainResult where
  exitCode : Nat
  target : Option Target
  hostResults : List (List Request × Except String Unit)

/-- All BMC requests a run issued, in order. -/
def bmcRequests (m : MainResult) : List Request :=
  (m.hostResults.map Prod.fst).flatten

/-- `main` (lines 232-306): check the holiday status, load the
configuration list, parse the CLI argument (an invalid one exits with
status 1 before any host is contacted); when no argument was given, use
`'auto'` if today is a weekend or holiday, else the first configuration
entry's `fan_speed`, exiting with status 1 when the list is empty or its
first entry lacks the key; then run every host and exit 0. -/
def mainRun (arg : Option String) (weekday : Nat) (today : Nat × Nat)
    (lk : HolidayLookup) (file : FileState) (envs : Nat → HostEnv) :
    MainResult :=
  let is_holiday := is_chinese_holiday today lk
  let configs := load_config file
  match get_fan_speed_input arg with
  | .invalid => ⟨1, none, []⟩
  | .autoMode => ⟨0, some .auto, runHosts .auto (attachEnvs envs 0 configs)⟩
  | .speedVal n =>
    ⟨0, some (.num n), runHosts (.num n) (attachEnvs envs 0 configs)⟩
  | .absent =>
    if is_weekend weekday || is_holiday then
      ⟨0, some .auto, runHosts .auto (attachEnvs envs 0 configs)⟩
    else
      match configs with
      | [] => ⟨1, none, []⟩
      | c0 :: _ =>
        match c0.fan_speed with
        | some s =>
          ⟨0, some (.num s), runHosts (.num s) (attachEnvs envs 0 configs)⟩
        | none => ⟨1, none, []⟩

/-! ### Observation helpers used by the theorems -/

/-- Whether an `Except` value is a success (Python: the `try` block finished
without raising). -/
def exOk {ε α : Type} : Except ε α → Bool
  | .ok _ => true
  | .error _ => false

/-- The duty value a request carries, when it is a per-fan PUT. -/
def reqDuty (r : Request) : Option Int :=
  match r.kind with
  | .putFanSpeed _ d => some d
  | _ => none

/-- Whether the duty a request carries (if any) lies in `[0, 100]`. -/
def dutyInRange (r : Request) : Bool :=
  match reqDuty r with
  | some d => decide (0 ≤ d) && decide (d ≤ 100)
  | none => true

/-- The session artifacts (session id, CSRF token) that `login` would
extract from a login response: the truthy session id scanned from the
`Set-Cookie` header and the `CSRFToken` field of the JSON body.  `none`
when `login` would raise instead of installing them. -/
def loginArtifacts (res : HttpResponse) : Option (String × Json) :=
  match res.setCookie with
  | none => none
  | some sc =>
    if sessionIdFalsy (extractSessionId sc.data) then none
    else
      match res.body with
      | none => none
      | some j =>
        match j.getField "CSRFToken" with
        | none => none
        | some tok =>
          some (String.mk ((extractSessionId sc.data).getD []), tok)

/-! ### Concrete fixtures used by the witness theorems -/

/-- A fully well-formed response body for every endpoint. -/
def wGoodBody : Json :=
  .obj [("random", .str "r"), ("CSRFToken", .str "tok"),
        ("duty", .num 30), ("fans", .arr [])]

/-- A successful response carrying a session cookie. -/
def wGoodResp : HttpResponse :=
  { status := 200, setCookie := some "SESSION=deadbeef; path=/",
    body := some wGoodBody }

/-- A failing response (HTTP 500, unparsable body). -/
def wFailResp : HttpResponse :=
  { status := 500, setCookie := none, body := none }

/-- A host environment that answers every call successfully. -/
def wEnv : HostEnv :=
  { randomResp := wGoodResp, loginResp := wGoodResp, modeResp := wGoodResp,
    fanResp := fun _ => wGoodResp, statusResp := wGoodResp }

/-- A controller with two fans, as `__init__` would build it. -/
def wCtrl : Controller :=
  { host := "h1", username := "u", password := "p", fans_count := 2,
    headers := initHeaders }

/-- A complete host configuration with one fan. -/
def wGoodC : HostConfig :=
  { bmc_host := some "h1", username := some "u", password := some "p",
    fans_count := some 1 }

/-- A configuration with every key absent (`__init__` raises KeyError). -/
def wBadC : HostConfig := {}

/-- Per-fan responses: fan 0 succeeds, every other fan fails. -/
def wNet : Nat → HttpResponse := fun i => if i = 0 then wGoodResp else wFailResp

/-! ### C1: `set_fan_speed` issues one PUT per fan and counts successes -/

/-- The loop of `set_fan_speed` issues exactly one PUT per index in order
(regardless of per-fan outcomes — failures are absorbed, never aborting the
loop) and returns the number of indices whose response satisfies
`fanPutSuccess`. -/
theorem setFanSpeedLoop_spec (ctrl : Controller) (speed : Int)
    (net : Nat → HttpResponse) (idxs : List Nat) :
    (setFanSpeedLoop ctrl speed net idxs).1 =
      idxs.map (fun i => ⟨ctrl.host, .putFanSpeed i speed, ctrl.headers⟩) ∧
    (setFanSpeedLoop ctrl speed net idxs).2 =
      idxs.countP (fun i => fanPutSuccess (net i)) := by
  induction idxs with
  | nil => simp [setFanSpeedLoop]
  | cons i rest ih =>
    refine ⟨?_, ?_⟩
    · simp only [setFanSpeedLoop, List.map_cons]
      rw [ih.1]
    · simp only [setFanSpeedLoop, List.countP_cons]
      rw [ih.2]
      cases h : fanPutSuccess (net i) <;> simp [h, Nat.add_comm]

/-- C1: for a host whose `fans_count` is `n` (`n ≥ 0`), `set_fan_speed`
issues exactly `n` per-fan PUT calls, for fan indices `0..n-1`, absorbs each
per-fan failure without aborting the loop (the trace never depends on the
outcomes), and returns a success count equal to the number of per-fan calls
that succeeded, with `0 ≤ successCount ≤ n`.  No per-fan failure propagates:
the function is total, returning `Nat` rather than `Except`. -/
theorem set_fan_speed_issues_and_counts (ctrl : Controller) (speed : Int)
    (net : Nat → HttpResponse) (n : Nat) (hn : ctrl.fans_count = (n : Int)) :
    (set_fan_speed ctrl speed net).1 =
      (List.range n).map (fun i => ⟨ctrl.host, .putFanSpeed i speed, ctrl.headers⟩) ∧
    (set_fan_speed ctrl speed net).1.length = n ∧
    (set_fan_speed ctrl speed net).2 =
      (List.range n).countP (fun i => fanPutSuccess (net i)) ∧
    (set_fan_speed ctrl speed net).2 ≤ n := by
  have hto : ctrl.fans_count.toNat = n := by rw [hn]; exact Int.toNat_natCast n
  have h := setFanSpeedLoop_spec ctrl speed net (List.range ctrl.fans_count.toNat)
  rw [hto] at h
  unfold set_fan_speed
  rw [hto]
  refine ⟨h.1, ?_, h.2, ?_⟩
  · rw [h.1]; simp
  · rw [h.2]
    have := List.countP_le_length (l := List.range n)
      (p := fun i => fanPutSuccess (net i))
    simpa using this

/-- Witness for C1 at a concrete controller with two fans, where fan 0
succeeds and fan 1 fails: two PUTs are issued and the count is 1. -/
theorem set_fan_speed_issues_and_counts_witness :
    (set_fan_speed wCtrl 30 wNet).1.length = 2 ∧
    (set_fan_speed wCtrl 30 wNet).2 ≤ 2 ∧
    (set_fan_speed wCtrl 30 wNet).2 = 1 :=
  ⟨(set_fan_speed_issues_and_counts wCtrl 30 wNet 2 rfl).2.1,
   (set_fan_speed_issues_and_counts wCtrl 30 wNet 2 rfl).2.2.2,
   by decide⟩

/-! ### C9: what counts as a per-fan success -/

/-- C9 (amended): a per-fan PUT is counted as a success exactly when
`raise_for_status` does not raise — i.e. the final status is not 4xx/5xx —
and the body parses as JSON containing the key `duty`.  In particular a 2xx
response whose body is not JSON or lacks `duty` is a failure; but a non-2xx,
non-error status (e.g. 304) with a `duty` body also counts as a success, so
"2xx" in the original claim is too strong. -/
theorem fanPutSuccess_characterization (res : HttpResponse) :
    fanPutSuccess res = true ↔
      (¬(400 ≤ res.status ∧ res.status < 600) ∧
        ∃ j, res.body = some j ∧ (j.getField "duty").isSome = true) := by
  have hse : statusError res.status = false ↔
      ¬(400 ≤ res.status ∧ res.status < 600) := by
    simp [statusError]
  unfold fanPutSuccess
  cases hb : res.body with
  | none => simp
  | some j =>
    rw [Bool.and_eq_true, Bool.not_eq_true', hse]
    constructor
    · rintro ⟨hs, hd⟩
      exact ⟨hs, j, rfl, hd⟩
    · rintro ⟨hs, j', hj', hd⟩
      injection hj' with hjj
      exact ⟨hs, hjj ▸ hd⟩

/-- C9 counterexample to the claim as stated: a response with final status
304 (3xx, hence not 2xx, and not raised by `raise_for_status`) whose body
is JSON with a `duty` key is counted as a success — and is counted toward
`successCount` by `set_fan_speed`. -/
theorem fanPutSuccess_304_counted :
    fanPutSuccess ⟨304, none, some (.obj [("duty", .num 50)])⟩ = true ∧
    ¬(200 ≤ 304 ∧ 304 < 300) ∧
    (set_fan_speed wCtrl 50
      (fun _ => ⟨304, none, some (.obj [("duty", .num 50)])⟩)).2 = 2 := by
  refine ⟨by decide, by decide, by decide⟩

/-! ### C2: one host's failure never aborts the run -/

/-- The host loop produces one entry per configuration. -/
theorem runHosts_length (target : Target) (l : List (HostConfig × HostEnv)) :
    (runHosts target l).length = l.length := by
  induction l with
  | nil => rfl
  | cons p rest ih =>
    cases p
    simp [runHosts, ih]

/-- Each entry of the host loop's output is exactly the outcome of
processing that host, independent of every other host. -/
theorem runHosts_getElem? (target : Target) (l : List (HostConfig × HostEnv))
    (j : Nat) :
    (runHosts target l)[j]? =
      (l[j]?).map (fun p => processHost target p.1 p.2) := by
  induction l generalizing j with
  | nil => simp [runHosts]
  | cons p rest ih =>
    cases p with
    | mk c env =>
      cases j with
      | zero => simp [runHosts]
      | succ j' => simpa [runHosts] using ih j'

/-- C2: if host `k`'s per-host sequence raises anywhere (controller
construction, login, set mode, set speed, fetch status — i.e.
`processHost` returns an error), the loop still produces one entry per
configured host and every host `j` — before or after `k` — is still fully
processed with exactly its own outcome: one host's failure never aborts
the run. -/
theorem host_failure_isolated (target : Target)
    (l : List (HostConfig × HostEnv)) (k : Nat) (pk : HostConfig × HostEnv)
    (msg : String) (_hk : l[k]? = some pk)
    (_hfail : (processHost target pk.1 pk.2).2 = .error msg) :
    (runHosts target l).length = l.length ∧
    ∀ j : Nat, (runHosts target l)[j]? =
      (l[j]?).map (fun p => processHost target p.1 p.2) :=
  ⟨runHosts_length target l, fun j => runHosts_getElem? target l j⟩

/-- Witness for C2: a run of two hosts where host 0's construction fails
(every config key absent) still fully processes host 1, whose outcome is a
success. -/
theorem host_failure_isolated_witness :
    (runHosts Target.auto [(wBadC, wEnv), (wGoodC, wEnv)]).length = 2 ∧
    (runHosts Target.auto [(wBadC, wEnv), (wGoodC, wEnv)])[1]? =
      some (processHost Target.auto wGoodC wEnv) ∧
    exOk (processHost Target.auto wGoodC wEnv).2 = true := by
  have h := host_failure_isolated Target.auto [(wBadC, wEnv), (wGoodC, wEnv)]
    0 (wBadC, wEnv) "KeyError: bmc_host" rfl rfl
  exact ⟨h.1.trans rfl, (h.2 1).trans rfl, by decide⟩

/-! ### C5: `load_config` is total and normalizes its result -/

/-- C5: `load_config` never raises (it is a total function into a plain
list): a single JSON object becomes a one-element list, a JSON array is
returned unchanged, and a missing file or any load/parse error yields the
empty list. -/
theorem load_config_cases :
    (∀ c, load_config (.jsonSingle c) = [c]) ∧
    (∀ cs, load_config (.jsonArr cs) = cs) ∧
    load_config .missing = [] ∧
    load_config .unparsable = [] :=
  ⟨fun _ => rfl, fun _ => rfl, rfl, rfl⟩

/-! ### C6: Saturday/Sunday alone decides the weekend-or-holiday check -/

/-- C6: for a weekday of Saturday (5) or Sunday (6), the orchestrator's
decision `is_weekend() or is_chinese_holiday()` is true for every remote
lookup outcome (success with any body, or failure), and a run with no CLI
argument therefore resolves the target to `'auto'`. -/
theorem weekend_decision_true (w : Nat) (hw : w = 5 ∨ w = 6)
    (today : Nat × Nat) (lk : HolidayLookup) :
    (is_weekend w || is_chinese_holiday today lk) = true ∧
    ∀ (file : FileState) (envs : Nat → HostEnv),
      (mainRun none w today lk file envs).target = some Target.auto := by
  have hwk : is_weekend w = true := by
    rcases hw with h | h <;> simp [is_weekend, h]
  refine ⟨by simp [hwk], ?_⟩
  intro file envs
  simp [mainRun, get_fan_speed_input, hwk]

/-- Witness for C6 on a concrete Sunday with a failing lookup and a date
outside the fallback table. -/
theorem weekend_decision_true_witness :
    (is_weekend 6 || is_chinese_holiday (3, 3) .fail) = true ∧
    (mainRun none 6 (3, 3) .fail .missing (fun _ => wEnv)).target =
      some Target.auto :=
  ⟨(weekend_decision_true 6 (Or.inr rfl) (3, 3) .fail).1,
   (weekend_decision_true 6 (Or.inr rfl) (3, 3) .fail).2 .missing
     (fun _ => wEnv)⟩

/-! ### C7: CLI argument validation -/

/-- C7: a CLI argument that is not `auto` and is non-numeric, or numeric but
outside `[0, 100]`, makes `get_fan_speed_input` exit with status 1, and the
run then contacts no BMC host; an in-range integer becomes the target
directly and the holiday-based resolution is skipped entirely (the resolved
target does not depend on the weekday or the lookup). -/
theorem cli_arg_policy :
    (∀ s, pyLower s ≠ "auto" → pyInt s = none →
       get_fan_speed_input (some s) = .invalid) ∧
    (∀ s n, pyLower s ≠ "auto" → pyInt s = some n → ¬(0 ≤ n ∧ n ≤ 100) →
       get_fan_speed_input (some s) = .invalid) ∧
    (∀ s n, pyLower s ≠ "auto" → pyInt s = some n → 0 ≤ n → n ≤ 100 →
       get_fan_speed_input (some s) = .speedVal n) ∧
    (∀ s w today lk file envs, get_fan_speed_input (some s) = .invalid →
       (mainRun (some s) w today lk file envs).exitCode = 1 ∧
       (mainRun (some s) w today lk file envs).hostResults = [] ∧
       bmcRequests (mainRun (some s) w today lk file envs) = []) ∧
    (∀ s n w today lk file envs, get_fan_speed_input (some s) = .speedVal n →
       (mainRun (some s) w today lk file envs).target = some (.num n)) := by
  refine ⟨?_, ?_, ?_, ?_, ?_⟩
  · intro s hne hpy
    simp [get_fan_speed_input, hne, hpy]
  · intro s n hne hpy hrange
    simp [get_fan_speed_input, hne, hpy, hrange]
  · intro s n hne hpy h0 h100
    simp [get_fan_speed_input, hne, hpy, h0, h100]
  · intro s w today lk file envs hinv
    refine ⟨?_, ?_, ?_⟩ <;> simp [mainRun, hinv, bmcRequests]
  · intro s n w today lk file envs hval
    simp [mainRun, hval]

/-- Witness for C7: argument `150` exits with status 1 and issues no BMC
request; argument `55` resolves the target to 55 on a weekday with a failed
lookup. -/
theorem cli_arg_policy_witness :
    get_fan_speed_input (some "150") = .invalid ∧
    (mainRun (some "150") 0 (3, 3) .fail (.jsonArr [wGoodC])
      (fun _ => wEnv)).exitCode = 1 ∧
    bmcRequests (mainRun (some "150") 0 (3, 3) .fail (.jsonArr [wGoodC])
      (fun _ => wEnv)) = [] ∧
    (mainRun (some "55") 0 (3, 3) .fail (.jsonArr [wGoodC])
      (fun _ => wEnv)).target = some (.num 55) := by
  have h150 := cli_arg_policy.2.1 "150" 150 (by decide) (by decide) (by decide)
  have hmain := cli_arg_policy.2.2.2.1 "150" 0 (3, 3) .fail
    (.jsonArr [wGoodC]) (fun _ => wEnv) h150
  have h55 := cli_arg_policy.2.2.1 "55" 55 (by decide) (by decide)
    (by decide) (by decide)
  exact ⟨h150, hmain.1, hmain.2.2,
    cli_arg_policy.2.2.2.2 "55" 55 0 (3, 3) .fail (.jsonArr [wGoodC])
      (fun _ => wEnv) h55⟩

/-! ### C4: target resolution from the first configuration entry -/

/-- C4: with no CLI argument on a day that is neither weekend nor holiday,
the target is the first configuration entry's `fan_speed`; when the
configuration list is empty, or its first entry lacks `fan_speed` — even if
later entries define it — the process exits with status 1 before any host
is processed. -/
theorem weekday_target_resolution (w : Nat) (today : Nat × Nat)
    (lk : HolidayLookup) (file : FileState) (envs : Nat → HostEnv)
    (hw : is_weekend w = false) (hh : is_chinese_holiday today lk = false) :
    (∀ c0 rest s, load_config file = c0 :: rest → c0.fan_speed = some s →
       (mainRun none w today lk file envs).target = some (.num s)) ∧
    (load_config file = [] →
       (mainRun none w today lk file envs).exitCode = 1 ∧
       (mainRun none w today lk file envs).hostResults = []) ∧
    (∀ c0 rest, load_config file = c0 :: rest → c0.fan_speed = none →
       (mainRun none w today lk file envs).exitCode = 1 ∧
       (mainRun none w today lk file envs).hostResults = []) := by
  refine ⟨?_, ?_, ?_⟩
  · intro c0 rest s hcfg hfs
    simp [mainRun, get_fan_speed_input, hw, hh, hcfg, hfs]
  · intro hcfg
    refine ⟨?_, ?_⟩ <;> simp [mainRun, get_fan_speed_input, hw, hh, hcfg]
  · intro c0 rest hcfg hfs
    refine ⟨?_, ?_⟩ <;>
      simp [mainRun, get_fan_speed_input, hw, hh, hcfg, hfs]

/-- A configuration whose `fan_speed` is 40 — placed after a first entry
that lacks the key, to witness that later entries do not rescue the run. -/
def wLaterC : HostConfig :=
  { bmc_host := some "h2", username := some "u", password := some "p",
    fans_count := some 1, fan_speed := some 40 }

/-- A first configuration entry that carries `fan_speed = 70`. -/
def wSpeedC : HostConfig := { wGoodC with fan_speed := some 70 }

/-- Witness for C4 on a Monday with a failed lookup: a first entry without
`fan_speed` exits 1 with no host processed even though the second entry has
`fan_speed = 40`; a first entry with `fan_speed = 70` resolves the target
to 70. -/
theorem weekday_target_resolution_witness :
    (mainRun none 0 (3, 3) .fail (.jsonArr [wGoodC, wLaterC])
      (fun _ => wEnv)).exitCode = 1 ∧
    (mainRun none 0 (3, 3) .fail (.jsonArr [wGoodC, wLaterC])
      (fun _ => wEnv)).hostResults = [] ∧
    (mainRun none 0 (3, 3) .fail (.jsonArr [wSpeedC])
      (fun _ => wEnv)).target = some (.num 70) := by
  have h := weekday_target_resolution 0 (3, 3) .fail
    (.jsonArr [wGoodC, wLaterC]) (fun _ => wEnv) (by decide) (by decide)
  have h2 := weekday_target_resolution 0 (3, 3) .fail (.jsonArr [wSpeedC])
    (fun _ => wEnv) (by decide) (by decide)
  exact ⟨(h.2.2 wGoodC [wLaterC] rfl rfl).1, (h.2.2 wGoodC [wLaterC] rfl rfl).2,
    h2.1 wSpeedC [] 70 rfl rfl⟩

/-! ### C8: session artifacts never cross hosts

Two facts are proved.  First, every request a host iteration sends carries
either no session artifacts at all (the two requests of the login handshake
itself) or exactly the artifacts `login` extracted from that host's own
login response — never anything else.  Second, a host's entire observable
iteration (trace, headers included, and outcome) is a function of that
host's own (config, environment) entry alone, so nothing from host A's
entry can reach host B's requests. -/

/-- A freshly constructed controller carries the `__init__` headers: no
cookie, no CSRF token. -/
theorem fanControllerInit_ok_headers (c : HostConfig) (ctrl : Controller)
    (h : fanControllerInit c = .ok ctrl) : ctrl.headers = initHeaders := by
  unfold fanControllerInit at h
  rcases c with ⟨bh, un, pw, fc, fs, d⟩
  cases bh <;> cases un <;> cases pw <;> cases fc <;> simp_all
  exact h.symm ▸ rfl

/-- The two requests `login` can send are the random-tag GET with the
pre-login headers and the session POST with the same headers under the
form-urlencoded content type. -/
theorem login_trace_shape (ctrl : Controller) (env : HostEnv) (req : Request)
    (h : req ∈ (login ctrl env).1) :
    req = ⟨ctrl.host, .getRandom, ctrl.headers⟩ ∨
    req = ⟨ctrl.host, .postSession, formHeaders ctrl.headers⟩ := by
  unfold login at h
  cases hr : getRandomResult env.randomResp with
  | error e =>
    rw [hr] at h
    simp only [List.mem_singleton] at h
    exact Or.inl h
  | ok v =>
    rw [hr] at h
    simp only [List.mem_cons, List.not_mem_nil, or_false] at h
    exact h

/-- When `login` succeeds, its result is the result of `loginFinish` on the
host's own login response. -/
theorem login_ok_finish (ctrl ctrl' : Controller) (env : HostEnv)
    (h : (login ctrl env).2 = .ok ctrl') :
    loginFinish ctrl env.loginResp = .ok ctrl' := by
  unfold login at h
  cases hr : getRandomResult env.randomResp with
  | error e => rw [hr] at h; exact Except.noConfusion h
  | ok v => rw [hr] at h; exact h

/-- A successful `loginFinish` installs exactly the artifacts
`loginArtifacts` extracts from the response. -/
theorem loginFinish_ok_artifacts (ctrl ctrl' : Controller)
    (res : HttpResponse) (h : loginFinish ctrl res = .ok ctrl') :
    ∃ sid tok, loginArtifacts res = some (sid, tok) ∧
      ctrl'.headers.cookie = some (mkCookieHeader sid) ∧
      ctrl'.headers.csrf = some tok := by
  unfold loginFinish at h
  split at h
  · exact Except.noConfusion h
  · split at h
    · exact Except.noConfusion h
    next sc hc =>
      split at h
      · exact Except.noConfusion h
      next hf =>
        split at h
        · exact Except.noConfusion h
        next j hb =>
          split at h
          · exact Except.noConfusion h
          next tok ht =>
            injection h with h'
            subst h'
            refine ⟨String.mk ((extractSessionId sc.data).getD []), tok,
              ?_, rfl, rfl⟩
            simp [loginArtifacts, hc, hb, ht, hf]

/-- Every PUT issued by the fan loop carries the controller's current
headers. -/
theorem setFanSpeedLoop_headers (ctrl : Controller) (speed : Int)
    (net : Nat → HttpResponse) (idxs : List Nat) (req : Request)
    (h : req ∈ (setFanSpeedLoop ctrl speed net idxs).1) :
    req.headers = ctrl.headers := by
  rw [(setFanSpeedLoop_spec ctrl speed net idxs).1] at h
  simp only [List.mem_map] at h
  rcases h with ⟨i, _, rfl⟩
  rfl

/-- Every request of one host iteration either carries no session artifacts
(the login handshake itself) or exactly the artifacts extracted from this
host's own login response. -/
theorem processHost_artifacts (target : Target) (c : HostConfig)
    (env : HostEnv) (req : Request)
    (hreq : req ∈ (processHost target c env).1) :
    (req.headers.cookie = none ∧ req.headers.csrf = none) ∨
    (∃ sid tok, loginArtifacts env.loginResp = some (sid, tok) ∧
      req.headers.cookie = some (mkCookieHeader sid) ∧
      req.headers.csrf = some tok) := by
  unfold processHost at hreq
  cases hinit : fanControllerInit c with
  | error e => simp [hinit] at hreq
  | ok ctrl0 =>
    simp only [hinit] at hreq
    have h0 : ctrl0.headers = initHeaders :=
      fanControllerInit_ok_headers c ctrl0 hinit
    have hpre : forall r, r ∈ (login ctrl0 env).1 →
        r.headers.cookie = none ∧ r.headers.csrf = none := by
      intro r hr
      rcases login_trace_shape ctrl0 env r hr with h | h <;>
        rw [h] <;> simp [h0, formHeaders, initHeaders]
    rcases hlog : login ctrl0 env with ⟨tr, lres⟩
    simp only [hlog] at hreq
    have htr : forall r, r ∈ tr →
        r.headers.cookie = none ∧ r.headers.csrf = none := by
      intro r hr
      exact hpre r (by rw [hlog]; exact hr)
    cases lres with
    | error e =>
      simp only at hreq
      exact Or.inl (htr req hreq)
    | ok ctrl =>
      have hfin : loginFinish ctrl0 env.loginResp = .ok ctrl :=
        login_ok_finish ctrl0 ctrl env (by rw [hlog])
      obtain ⟨sid, tok, hart, hcook, hcsrf⟩ :=
        loginFinish_ok_artifacts ctrl0 ctrl env.loginResp hfin
      have hpost : forall r : Request, r.headers = ctrl.headers →
          (r.headers.cookie = none ∧ r.headers.csrf = none) ∨
          (∃ sid2 tok2, loginArtifacts env.loginResp = some (sid2, tok2) ∧
            r.headers.cookie = some (mkCookieHeader sid2) ∧
            r.headers.csrf = some tok2) := by
        intro r hr
        exact Or.inr ⟨sid, tok, hart, by rw [hr, hcook], by rw [hr, hcsrf]⟩
      cases target with
      | auto =>
        by_cases hm : statusError env.modeResp.status = true
        · simp only [set_fan_mode, hm, if_true] at hreq
          rcases List.mem_append.mp hreq with h | h
          · exact Or.inl (htr req h)
          · exact hpost req (by rw [List.mem_singleton.mp h])
        · simp [set_fan_mode, get_fan_status, hm] at hreq
          rcases hreq with h | h | h
          · exact Or.inl (htr req h)
          · exact hpost req (by rw [h])
          · exact hpost req (by rw [h])
      | num t =>
        by_cases hm : statusError env.modeResp.status = true
        · simp only [set_fan_mode, hm, if_true] at hreq
          rcases List.mem_append.mp hreq with h | h
          · exact Or.inl (htr req h)
          · exact hpost req (by rw [List.mem_singleton.mp h])
        · simp [set_fan_mode, get_fan_status, hm] at hreq
          rcases hreq with h | h | h | h
          · exact Or.inl (htr req h)
          · exact hpost req (by rw [h])
          · exact hpost req (setFanSpeedLoop_headers ctrl _ env.fanResp _ req h)
          · exact hpost req (by rw [h])

/-- C8: session artifacts never cross hosts.  Part one: every request of a
host iteration carries either no session cookie and no CSRF token (the two
requests of the login handshake itself) or exactly the artifacts `login`
extracted from that host's own login response.  Part two: a host's entire
observable iteration (its full request trace, headers included, and its
outcome) is a function of that host's own (config, environment) entry
alone — every iteration constructs a fresh controller with fresh header
state, so nothing extracted during host A's login can reach a request made
against host B. -/
theorem session_artifacts_not_shared :
    (∀ (target : Target) (c : HostConfig) (env : HostEnv) (req : Request),
      req ∈ (processHost target c env).1 →
      (req.headers.cookie = none ∧ req.headers.csrf = none) ∨
      (∃ sid tok, loginArtifacts env.loginResp = some (sid, tok) ∧
        req.headers.cookie = some (mkCookieHeader sid) ∧
        req.headers.csrf = some tok)) ∧
    (∀ (target : Target) (l l2 : List (HostConfig × HostEnv)) (j : Nat)
      (p : HostConfig × HostEnv), l[j]? = some p → l2[j]? = some p →
      (runHosts target l)[j]? = (runHosts target l2)[j]?) := by
  refine ⟨fun target c env req h => processHost_artifacts target c env req h, ?_⟩
  intro target l l2 j p h1 h2
  rw [runHosts_getElem? target l j, runHosts_getElem? target l2 j, h1, h2]

/-- Witness for C8: the fan-mode PUT (trace index 2) of a concrete host
iteration carries that host's own login artifacts, and the first host's
iteration output is unchanged when the second host's entry is replaced. -/
theorem session_artifacts_not_shared_witness :
    ((((processHost (Target.num 30) wGoodC wEnv).1.get
        ⟨2, by decide⟩).headers.cookie = none ∧
      (((processHost (Target.num 30) wGoodC wEnv).1.get
        ⟨2, by decide⟩)).headers.csrf = none) ∨
     (∃ sid tok, loginArtifacts wEnv.loginResp = some (sid, tok) ∧
       ((processHost (Target.num 30) wGoodC wEnv).1.get
          ⟨2, by decide⟩).headers.cookie = some (mkCookieHeader sid) ∧
       ((processHost (Target.num 30) wGoodC wEnv).1.get
          ⟨2, by decide⟩).headers.csrf = some tok)) ∧
    (runHosts Target.auto [(wGoodC, wEnv), (wBadC, wEnv)])[0]? =
      (runHosts Target.auto [(wGoodC, wEnv), (wLaterC, wEnv)])[0]? :=
  ⟨session_artifacts_not_shared.1 (Target.num 30) wGoodC wEnv _
     (List.get_mem _ _ _),
   session_artifacts_not_shared.2 Target.auto _ _ 0 (wGoodC, wEnv) rfl rfl⟩

/-! ### C3: which duty values are validated -/

/-- A first configuration entry carrying the out-of-range
`fan_speed = 150`. -/
def wSpeedC150 : HostConfig := { wGoodC with fan_speed := some 150 }

/-- C3 counterexample: in a run with no CLI argument on a non-holiday
weekday whose first configuration entry has `fan_speed = 150`, the per-fan
PUT is sent with duty 150 — no validation or clamping to [0, 100] happens
for config-derived speeds, refuting the claim that every sent duty value
has been validated or clamped. -/
theorem duty_clamp_cex :
    ¬ (∀ req ∈ bmcRequests (mainRun none 0 (3, 3) .fail
        (.jsonArr [wSpeedC150]) (fun _ => wEnv)), dutyInRange req = true) := by
  decide

/-- C3 (amended): only the CLI-supplied speed is validated against [0, 100]
(`get_fan_speed_input` accepts an integer only in that range); a speed
taken from the configuration — the first entry's `fan_speed` used as the
target, or a host's own `fan_speed` — is sent exactly as written, with no
validation or clamping: every per-fan PUT of a host iteration with numeric
target `t` carries duty exactly `currentSpeed t c` (the host's `fan_speed`
when present, else `t`). -/
theorem duty_validation_policy :
    (∀ s n, get_fan_speed_input (some s) = .speedVal n → 0 ≤ n ∧ n ≤ 100) ∧
    (∀ (t : Int) (c : HostConfig) (env : HostEnv) (req : Request),
      req ∈ (processHost (.num t) c env).1 →
      reqDuty req = none ∨ reqDuty req = some (currentSpeed t c)) := by
  constructor
  · intro s n h
    by_cases ha : pyLower s = "auto"
    · simp [get_fan_speed_input, ha] at h
    · cases hp : pyInt s with
      | none => simp [get_fan_speed_input, ha, hp] at h
      | some m =>
        by_cases hr : 0 ≤ m ∧ m ≤ 100
        · simp [get_fan_speed_input, ha, hp, hr] at h
          rw [← h]
          exact hr
        · simp [get_fan_speed_input, ha, hp, hr] at h
  · intro t c env req hreq
    unfold processHost at hreq
    cases hinit : fanControllerInit c with
    | error e => simp [hinit] at hreq
    | ok ctrl0 =>
      simp only [hinit] at hreq
      have hpreD : ∀ r ∈ (login ctrl0 env).1, reqDuty r = none := by
        intro r hr
        rcases login_trace_shape ctrl0 env r hr with h | h <;> rw [h] <;> rfl
      rcases hlog : login ctrl0 env with ⟨tr, lres⟩
      simp only [hlog] at hreq
      have htrD : ∀ r ∈ tr, reqDuty r = none := by
        intro r hr
        exact hpreD r (by rw [hlog]; exact hr)
      cases lres with
      | error e =>
        simp only at hreq
        exact Or.inl (htrD req hreq)
      | ok ctrl =>
        by_cases hm : statusError env.modeResp.status = true
        · simp only [set_fan_mode, hm, if_true] at hreq
          rcases List.mem_append.mp hreq with h | h
          · exact Or.inl (htrD req h)
          · rw [List.mem_singleton.mp h]
            exact Or.inl rfl
        · simp [set_fan_mode, get_fan_status, hm] at hreq
          rcases hreq with h | h | h | h
          · exact Or.inl (htrD req h)
          · rw [h]
            exact Or.inl rfl
          · right
            replace h : req ∈ (setFanSpeedLoop ctrl (currentSpeed t c)
              env.fanResp (List.range ctrl.fans_count.toNat)).1 := h
            rw [(setFanSpeedLoop_spec ctrl (currentSpeed t c)
              env.fanResp _).1] at h
            rcases List.mem_map.mp h with ⟨i, _, rfl⟩
            rfl
          · rw [h]
            exact Or.inl rfl

/-- Witness for the amended C3: the CLI argument `55` passes validation,
and the fan PUT (trace index 3) of a concrete host iteration carries
exactly `currentSpeed 30 wGoodC = 30`. -/
theorem duty_validation_policy_witness :
    (0 ≤ (55 : Int) ∧ (55 : Int) ≤ 100) ∧
    (reqDuty ((processHost (Target.num 30) wGoodC wEnv).1.get
        ⟨3, by decide⟩) = none ∨
     reqDuty ((processHost (Target.num 30) wGoodC wEnv).1.get
        ⟨3, by decide⟩) = some (currentSpeed 30 wGoodC)) :=
  ⟨duty_validation_policy.1 "55" 55 (by decide),
   duty_validation_policy.2 30 wGoodC wEnv _ (List.get_mem _ _ _)⟩

/-! ### C10: cookie scanning lemmas -/

/-- Unfolding equation of `splitOnChar` on a cons cell. -/
theorem splitOnChar_cons (c x : Char) (xs : List Char) :
    splitOnChar c (x :: xs) =
      match splitOnChar c xs with
      | [] => [[]]
      | h :: t => if x = c then [] :: h :: t else (x :: h) :: t := rfl

/-- `splitOnChar` never returns the empty list. -/
theorem splitOnChar_ne_nil (c : Char) (l : List Char) :
    splitOnChar c l ≠ [] := by
  induction l with
  | nil => simp [splitOnChar]
  | cons x xs ih =>
    rw [splitOnChar_cons]
    cases h : splitOnChar c xs with
    | nil => simp
    | cons hd tl => by_cases hx : x = c <;> simp [hx]

/-- Splitting on a separator that does not occur returns the list whole. -/
theorem splitOnChar_not_mem (c : Char) (l : List Char) (h : c ∉ l) :
    splitOnChar c l = [l] := by
  induction l with
  | nil => rfl
  | cons x xs ih =>
    have hx : x ≠ c := fun he => h (he ▸ List.mem_cons_self x xs)
    have hxs : c ∉ xs := fun hm => h (List.mem_cons_of_mem x hm)
    rw [splitOnChar_cons, ih hxs]
    simp [hx]

/-- The first piece of a split is the run of characters before the first
separator. -/
theorem splitOnChar_head (c : Char) (l : List Char) :
    (splitOnChar c l).head? = some (l.takeWhile (fun x => x ≠ c)) := by
  induction l with
  | nil => rfl
  | cons x xs ih =>
    rw [splitOnChar_cons]
    cases h : splitOnChar c xs with
    | nil => exact absurd h (splitOnChar_ne_nil c xs)
    | cons hd tl =>
      rw [h] at ih
      simp only [List.head?_cons, Option.some.injEq] at ih
      by_cases hx : x = c
      · subst hx
        simp [List.takeWhile_cons]
      · simp [hx, List.takeWhile_cons, ih]

/-- Splitting `l1 ++ c :: l2` where `c` does not occur in `l1` yields `l1`
followed by the split of `l2`. -/
theorem splitOnChar_append (c : Char) (l1 l2 : List Char) (h : c ∉ l1) :
    splitOnChar c (l1 ++ c :: l2) = l1 :: splitOnChar c l2 := by
  induction l1 with
  | nil =>
    simp only [List.nil_append]
    rw [splitOnChar_cons]
    cases hs : splitOnChar c l2 with
    | nil => exact absurd hs (splitOnChar_ne_nil c l2)
    | cons hd tl => simp
  | cons x xs ih =>
    have hx : x ≠ c := fun he => h (he ▸ List.mem_cons_self x xs)
    have hxs : c ∉ xs := fun hm => h (List.mem_cons_of_mem x hm)
    simp only [List.cons_append]
    rw [splitOnChar_cons, ih hxs]
    simp [hx]

/-- `dropWhile` is the identity when no element satisfies the predicate. -/
theorem dropWhile_eq_self_of_none (p : Char → Bool) (l : List Char)
    (h : ∀ ch ∈ l, p ch = false) : l.dropWhile p = l := by
  cases l with
  | nil => rfl
  | cons x xs =>
    rw [List.dropWhile_cons]
    simp [h x (List.mem_cons_self x xs)]

/-- `stripChars` is the identity on whitespace-free strings. -/
theorem stripChars_eq_self (l : List Char)
    (h : ∀ ch ∈ l, ¬ ch.isWhitespace) : stripChars l = l := by
  unfold stripChars
  have h1 : l.dropWhile Char.isWhitespace = l :=
    dropWhile_eq_self_of_none _ l (fun ch hc => by simp [h ch hc])
  rw [h1]
  have h2 : l.reverse.dropWhile Char.isWhitespace = l.reverse :=
    dropWhile_eq_self_of_none _ l.reverse
      (fun ch hc => by simp [h ch (List.mem_reverse.mp hc)])
  rw [h2, List.reverse_reverse]

/-- A list starts with its own prefix. -/
theorem startsWithL_append (p l : List Char) :
    startsWithL (p ++ l) p = true := by
  induction p with
  | nil => cases l <;> rfl
  | cons x xs ih => simp [startsWithL, ih]

/-- C10: scanning a `Set-Cookie` value whose matching cookie is
`SESSION=<v>` or `QSESSIONID=<v>` (with `v` free of `;` and whitespace)
extracts exactly the part of `v` before its first `=`; and when `v` is
empty the extracted id is the empty string, which Python treats as falsy,
so `login` raises rather than accepting the session. -/
theorem session_cookie_extraction (k v : List Char)
    (hk : k = sessKey ∨ k = qsessKey)
    (hsemi : ';' ∉ v) (hws : ∀ ch ∈ v, ¬ ch.isWhitespace) :
    extractSessionId (k ++ v) = some (v.takeWhile (fun ch => ch ≠ '=')) ∧
    (v = [] → ∀ (ctrl : Controller) (env : HostEnv),
      env.loginResp.setCookie = some (String.mk (k ++ v)) →
      exOk (login ctrl env).2 = false) := by
  have hknws : ∀ ch ∈ k, ¬ ch.isWhitespace := by
    rcases hk with rfl | rfl <;> decide
  have hknsemi : ';' ∉ k := by
    rcases hk with rfl | rfl <;> decide
  have hnosemi : ';' ∉ k ++ v := by
    intro hm
    rcases List.mem_append.mp hm with hm | hm
    · exact hknsemi hm
    · exact hsemi hm
  have hnows : ∀ ch ∈ k ++ v, ¬ ch.isWhitespace := by
    intro ch hm
    rcases List.mem_append.mp hm with hm | hm
    · exact hknws ch hm
    · exact hws ch hm
  have hguard : (startsWithL (k ++ v) sessKey ||
      startsWithL (k ++ v) qsessKey) = true := by
    rcases hk with rfl | rfl
    · rw [startsWithL_append]
      simp
    · rw [startsWithL_append qsessKey v]
      simp
  have hsplit1 : (splitOnChar '=' (k ++ v)).get? 1 =
      some (v.takeWhile (fun ch => ch ≠ '=')) := by
    rcases hk with rfl | rfl
    · have hrw : sessKey ++ v = "SESSION".data ++ ('=' :: v) := by
        have h0 : sessKey = "SESSION".data ++ ['='] := by decide
        rw [h0, List.append_assoc]
        rfl
      rw [hrw, splitOnChar_append '=' _ v (by decide)]
      cases hs : splitOnChar '=' v with
      | nil => exact absurd hs (splitOnChar_ne_nil '=' v)
      | cons hd tl =>
        have hh := splitOnChar_head '=' v
        rw [hs] at hh
        simp only [List.head?_cons, Option.some.injEq] at hh
        simp [hh]
    · have hrw : qsessKey ++ v = "QSESSIONID".data ++ ('=' :: v) := by
        have h0 : qsessKey = "QSESSIONID".data ++ ['='] := by decide
        rw [h0, List.append_assoc]
        rfl
      rw [hrw, splitOnChar_append '=' _ v (by decide)]
      cases hs : splitOnChar '=' v with
      | nil => exact absurd hs (splitOnChar_ne_nil '=' v)
      | cons hd tl =>
        have hh := splitOnChar_head '=' v
        rw [hs] at hh
        simp only [List.head?_cons, Option.some.injEq] at hh
        simp [hh]
  have hmain : extractSessionId (k ++ v) =
      some (v.takeWhile (fun ch => ch ≠ '=')) := by
    unfold extractSessionId
    rw [splitOnChar_not_mem ';' (k ++ v) hnosemi]
    show (if (startsWithL (stripChars (k ++ v)) sessKey ||
          startsWithL (stripChars (k ++ v)) qsessKey) = true then
        (splitOnChar '=' (stripChars (k ++ v))).get? 1
      else findSession []) = some (v.takeWhile (fun ch => ch ≠ '='))
    rw [stripChars_eq_self (k ++ v) hnows, hguard]
    simpa using hsplit1
  refine ⟨hmain, ?_⟩
  intro hv ctrl env hsc
  subst hv
  rw [List.append_nil] at hmain hsc
  have hfalsy : sessionIdFalsy (extractSessionId k) = true := by
    rw [hmain]
    rfl
  unfold login
  cases hr : getRandomResult env.randomResp with
  | error e => rfl
  | ok x =>
    show exOk (loginFinish ctrl env.loginResp) = false
    unfold loginFinish
    by_cases hs : statusError env.loginResp.status = true
    · simp [hs, exOk]
    · rw [if_neg hs, hsc]
      show exOk (if sessionIdFalsy (extractSessionId (String.mk k).data) = true
        then (Except.error "cannot get session id" : Except String Controller)
        else _) = false
      rw [if_pos hfalsy]
      rfl

/-- A login response whose `Set-Cookie` carries a `SESSION=` cookie with an
empty value. -/
def wEmptyCookieResp : HttpResponse :=
  { status := 200, setCookie := some "SESSION=", body := some wGoodBody }

/-- A host environment whose login answer carries the empty session
cookie. -/
def wEmptyCookieEnv : HostEnv := { wEnv with loginResp := wEmptyCookieResp }

/-- Witness for C10: from `SESSION=abc=def` the extracted session id is
`abc` (the value part before its first `=`), and against a host answering
with `SESSION=` (empty value) `login` fails. -/
theorem session_cookie_extraction_witness :
    extractSessionId (sessKey ++ "abc=def".data) = some "abc".data ∧
    exOk (login wCtrl wEmptyCookieEnv).2 = false :=
  ⟨((session_cookie_extraction sessKey "abc=def".data (Or.inl rfl)
      (by decide) (by decide)).1).trans (by decide),
   (session_cookie_extraction sessKey [] (Or.inl rfl) (by decide)
      (by decide)).2 rfl wCtrl wEmptyCookieEnv (by decide)⟩

end FanSpeed
